import Mathlib

/-!
Verification development for the task scheduling core in
`engine/core/tasks/awaitable_task.hpp` (namespace `tasks`).

The development shallowly embeds, at the level of lists and explicit state:
  * the task object (`awaitable_task` with its two models,
    `ready_task_model` and `awaitable_task_model`);
  * the mutex-protected queue (`awaitable_task_system::task_queue`),
    including the `forward_list` splice operations used by `rotate_with_`
    and the ready-skipping scan of `pop`;
  * the dispatch layer of `awaitable_task_system` (`push_ready`,
    `push_awaitable`, the `*_on_main` variants, `get_thread_queue_idx`,
    `run_on_main`).

Modelling conventions:
  * runtime values and exception payloads are both `Nat`;
  * a callable is a Lean function `List Val → Except Err Val`; a raised
    exception is the `Except.error` case, matching how
    `std::packaged_task` captures a throwing callable;
  * `std::future` state is an explicit three-way inductive
    (pending / value / failure);
  * mutex `try_lock` outcomes and `try_push` / `try_pop` successes that
    depend on cross-thread timing are supplied by boolean oracles;
  * operations whose C++ source has undefined behaviour on some inputs
    (dereferencing or splicing after a null `forward_list` iterator)
    are partial: they return `Option`, with `none` marking the
    undefined-behaviour case.
-/

namespace AwaitableTasks

/-- Runtime values carried by futures and callables. -/
abbrev Val := Nat

/-- Exception payloads; tracked by identity so propagation can be observed. -/
abbrev Err := Nat

/-- The observable state of a `std::future` argument at a fixed instant:
not yet resolved, resolved with a value, or resolved with a stored
exception. -/
inductive FutState
  | pending
  | value (v : Val)
  | failure (e : Err)
deriving DecidableEq, Repr

/-- One bound argument slot of an `awaitable_task_model`: either a plain
(non-future) value, or a `std::future`.  This mirrors the overload
dispatch of `call_get` / `call_ready`, which select on whether the stored
argument is a `std::future`. -/
inductive BoundArg
  | plain (v : Val)
  | fut (s : FutState)
deriving DecidableEq, Repr

/-- `call_ready` as overload resolution selects it inside the `const`
member `do_ready_` (awaitable_task.hpp:374-389).  `do_ready_` is
`const`, so `std::get<I>(_args)` yields const lvalues; the
`call_ready(std::future<T> &)` overload (awaitable_task.hpp:377-382),
which would poll `wait_for(0s)`, cannot bind its non-const reference to
a const argument (and deduction cannot drop the const), so it is
non-viable and the generic `call_ready(T &)`
(awaitable_task.hpp:374-375) — which returns `true` unconditionally —
is selected for future arguments too.  The zero-duration poll the
future overload would have performed is kept as the spec-side
`specArgReady` below. -/
def call_ready : BoundArg → Bool
  | _ => true

/-- Modelled from the spec: `nonstd::check_all_true` lives in
`engine/core/common/nonstd/type_traits.hpp`, which is not under `src/`.
The spec states that `ready()` for awaitable tasks "returns true iff
every future-typed argument reports ready under a zero-duration wait,
with non-future arguments counting as ready", so `check_all_true` is the
conjunction of its boolean arguments. -/
def check_all_true (bs : List Bool) : Bool := bs.all id

/-- `awaitable_task_model::do_ready_` (awaitable_task.hpp:384-389):
`check_all_true(call_ready(std::get<I>(_args))...)`.  With the
const-overload resolution of `call_ready` above, this is constantly
`true`. -/
def do_ready (args : List BoundArg) : Bool :=
  check_all_true (args.map call_ready)

/-- Result of evaluating `call_get` on one bound argument
(awaitable_task.hpp:354-366).  A plain argument passes through; a future
argument is consumed with `get()`, which blocks while the future is
pending and rethrows the stored exception when the future resolved with
a failure.  In this static model a pending future never resolves, so the
blocking `get()` is the `blockedForever` case. -/
inductive GetRes
  | got (v : Val)
  | raised (e : Err)
  | blockedForever
deriving DecidableEq, Repr

/-- `call_get` on one bound argument. -/
def call_get : BoundArg → GetRes
  | .plain v => .got v
  | .fut .pending => .blockedForever
  | .fut (.value v) => .got v
  | .fut (.failure e) => .raised e

/-- Outcome of evaluating the whole argument pack
`call_get(std::get<I>(std::move(_args)))...` at the call site of `_f`
in `do_invoke_` (awaitable_task.hpp:368-372).  The C++ evaluation order
of the pack is unspecified; the model fixes left-to-right, which is
irrelevant to every theorem below (each uses at most one future
argument). -/
inductive ArgsEval
  | vals (vs : List Val)
  | raisedDuringEval (e : Err)
  | blockedPending
deriving DecidableEq, Repr

/-- Evaluate the argument pack via `call_get`. -/
def evalArgs : List BoundArg → ArgsEval
  | [] => .vals []
  | a :: rest =>
    match call_get a with
    | .blockedForever => .blockedPending
    | .raised e => .raisedDuringEval e
    | .got v =>
      match evalArgs rest with
      | .vals vs => .vals (v :: vs)
      | r => r

/-- The type-erased model held by a non-empty `awaitable_task`:
`ready_task_model` stores a callable and plain bound arguments;
`awaitable_task_model` stores a callable and bound arguments any of
which may be futures. -/
inductive TaskModel
  | readyModel (f : List Val → Except Err Val) (args : List Val)
  | awaitableModel (f : List Val → Except Err Val) (args : List BoundArg)

/-- An `awaitable_task` value: empty (default-constructed or moved-from,
`_t == nullptr`) or holding exactly one model. -/
abbrev AwTask := Option TaskModel

/-- `make_ready_task` (awaitable_task.hpp:83-103): builds a task holding
a `ready_task_model` over the callable and the bound arguments. -/
def make_ready_task (f : List Val → Except Err Val) (args : List Val) : AwTask :=
  some (.readyModel f args)

/-- `make_awaitable_task` (awaitable_task.hpp:128-155): builds a task
holding an `awaitable_task_model` over the callable and the bound
arguments, any of which may be futures. -/
def make_awaitable_task (f : List Val → Except Err Val) (args : List BoundArg) : AwTask :=
  some (.awaitableModel f args)

/-- The single error kind raised by the task object itself:
`throw std::logic_error("bad task access")` on an empty task
(awaitable_task.hpp:187-201). -/
inductive TaskErr
  | badTaskAccess
deriving DecidableEq, Repr

/-- `awaitable_task::ready()` (awaitable_task.hpp:195-201): throws
`BadTaskAccess` when empty; otherwise virtual-dispatches to the model:
`ready_task_model::ready_` returns `true` unconditionally
(awaitable_task.hpp:299-302), `awaitable_task_model::ready_` runs
`do_ready_`.  Per the const-overload resolution modelled in
`call_ready`, the compiled `ready()` returns `true` for every non-empty
task, pending future arguments included. -/
def awReady : AwTask → Except TaskErr Bool
  | none => .error .badTaskAccess
  | some (.readyModel _ _) => .ok true
  | some (.awaitableModel _ args) => .ok (do_ready args)

/-- What `awaitable_task::operator()()` does, observationally: throws
`BadTaskAccess`, blocks inside a dependency `get()`, hits an uncaptured
dependency failure, or returns normally.  The `escaped e` phase marks a
dependency failure `e` that leaves argument evaluation without ever
being captured into the promise; since both `call_get` overloads are
declared `noexcept`, the compiled program in fact calls
`std::terminate` at that point rather than propagating `e` to the
caller of `invoke()` — under either reading, no later operation runs
and the promise is never set. -/
inductive InvokePhase
  | badTaskAccess
  | blockedOnGet
  | escaped (e : Err)
  | returned
deriving DecidableEq, Repr

/-- `awaitable_task::operator()()` (awaitable_task.hpp:187-193) composed
with the model's `invoke_`.  The result pairs the phase with the state
of the output promise after the call (`none` = never satisfied).

For `ready_task_model::invoke_` (awaitable_task.hpp:294-297) the
packaged task runs on the stored plain arguments and captures the
callable's value or exception into the promise.

For `awaitable_task_model::invoke_` / `do_invoke_`
(awaitable_task.hpp:341-372) the expression is
`_f(call_get(std::get<I>(std::move(_args)))...)`: `invoke_` is
non-const, so the `call_get(std::future<T> &&)` overload *is* selected
for future arguments, and the `call_get` calls are evaluated by the
caller *before* `std::packaged_task::operator()` runs.  An exception
rethrown by a dependency `get()` is therefore never captured into the
promise — and because `call_get` is `noexcept`, the rethrow inside it
makes the compiled program call `std::terminate` (the `escaped` phase);
the promise is left unset either way.  Only once all arguments are
obtained does the packaged task run and capture the callable's result
(or its exception) into the promise. -/
def awInvoke : AwTask → InvokePhase × Option (Except Err Val)
  | none => (.badTaskAccess, none)
  | some (.readyModel f args) => (.returned, some (f args))
  | some (.awaitableModel f args) =>
    match evalArgs args with
    | .blockedPending => (.blockedOnGet, none)
    | .raisedDuringEval e => (.escaped e, none)
    | .vals vs => (.returned, some (f vs))

/-- Boolean discriminator: did the invocation raise `BadTaskAccess`? -/
def InvokePhase.isBadAccess : InvokePhase → Bool
  | .badTaskAccess => true
  | _ => false

/-! ## The task queue (`awaitable_task_system::task_queue`)

The queue owns a `std::forward_list` of tasks, a tail iterator `last_`,
and an atomic `done_` flag.  `forward_list` iterators are modelled as
positions: the `before_begin` sentinel, an element index, or the null
past-the-end iterator.  `begin()` of an *empty* list equals `end()`
(the null iterator), which is what makes the splices inside
`rotate_with_` partial.  Node identity and element index coincide on
every path on which no splice has succeeded; every list-mutating path of
the scan below in fact aborts with undefined behaviour before that
distinction could matter. -/

/-- A `std::forward_list` iterator value. -/
inductive FPos
  | beforeBegin
  | node (i : Nat)
  | endPos
deriving DecidableEq, Repr

/-- `forward_list::begin()`: the first node, or the null `end()` iterator
when the list is empty. -/
def fwdBegin {α : Type} (l : List α) : FPos :=
  if l.isEmpty then FPos.endPos else FPos.node 0

/-- `++iter`: the successor position inside the given list. -/
def posSucc {α : Type} (l : List α) : FPos → FPos
  | .beforeBegin => fwdBegin l
  | .node i => if i + 1 < l.length then FPos.node (i + 1) else FPos.endPos
  | .endPos => FPos.endPos

/-- `*iter`: dereference a position; `none` when the position is not a
dereferenceable element (null / before-begin), which in the C++ is a
null-pointer dereference. -/
def derefPos {α : Type} (l : List α) : FPos → Option α
  | .node i => l.get? i
  | _ => none

/-- `dst.splice_after(pos, src)`: moves every element of `src` into `dst`
right after `pos`, leaving `src` empty.  With an empty source the
library call is a no-op.  Otherwise splicing after the null `end()`
iterator writes through a null pointer: undefined behaviour, `none`. -/
def spliceAfterAll {α : Type} (dst : List α) (pos : FPos) (src : List α) :
    Option (List α × List α) :=
  if src.isEmpty then some (dst, src)
  else
    match pos with
    | .beforeBegin => some (src ++ dst, [])
    | .node i =>
      if i < dst.length then some (dst.take (i + 1) ++ src ++ dst.drop (i + 1), [])
      else none
    | .endPos => none

/-- `dst.splice_after(pos, src, src.begin(), src.end())`: moves the open
range `(begin, end)` of `src` — every element except the first — into
`dst` after `pos`.  When the range is empty (`src` has at most one
element) the call moves nothing.  Otherwise a null `pos` is undefined
behaviour, `none`. -/
def spliceAfterTail {α : Type} (dst : List α) (pos : FPos) (src : List α) :
    Option (List α × List α) :=
  if src.length ≤ 1 then some (dst, src)
  else
    match pos with
    | .beforeBegin => some (src.drop 1 ++ dst, src.take 1)
    | .node i =>
      if i < dst.length then
        some (dst.take (i + 1) ++ src.drop 1 ++ dst.drop (i + 1), src.take 1)
      else none
    | .endPos => none

/-- `task_queue::rotate_with_` (awaitable_task.hpp:413-429).  Intended,
per its own comment, to rotate the first element of `tasks_` onto the
end.  Steps, on the non-trivial path (`tasks_` nonempty and `last_ ≠
begin()`):
1. `side_buf.splice_after(side_buf.begin(), tasks_)` — note `begin()`,
   not `before_begin()`: with `side_buf` empty this targets the null
   end iterator while `tasks_` is nonempty, so it is undefined
   behaviour;
2. `tasks_.splice_after(tasks_.begin(), side_buf, side_buf.begin(),
   side_buf.end())` — `tasks_` is empty after step 1, so its `begin()`
   is again the null iterator;
3. `new_last := side_buf.begin()`, then
   `tasks_.splice_after(last_, side_buf)`, then `last_ := new_last`.
The result triple is `(tasks_, last_, side_buf)`. -/
def rotateWith {α : Type} (tasks : List α) (last : FPos) (sideBuf : List α) :
    Option (List α × FPos × List α) :=
  if tasks.isEmpty || last = fwdBegin tasks then
    some (tasks, last, sideBuf)
  else do
    let s1 ← spliceAfterAll sideBuf (fwdBegin sideBuf) tasks
    let s2 ← spliceAfterTail s1.2 (fwdBegin s1.2) s1.1
    let newLast := fwdBegin s2.2
    let s3 ← spliceAfterAll s2.1 last s2.2
    some (s3.1, newLast, s3.2)

/-- The state of one `task_queue`: the task sequence, the tail cursor
`last_`, and the `done_` flag.  (`last_` is uninitialised on a freshly
constructed queue; its value is irrelevant while the sequence is
empty.) -/
structure Queue (α : Type) where
  tasks : List α
  last : FPos
  done : Bool

/-- `task_queue::set_done` (awaitable_task.hpp:444-448): store `true`
into `done_` and notify all waiters (the notification carries no state
change). -/
def setDone {α : Type} (q : Queue α) : Queue α :=
  { q with done := true }

/-- Insert an element after index `i` (`emplace_after` on a node
position). -/
def insertAfter {α : Type} (l : List α) (i : Nat) (t : α) : List α :=
  l.take (i + 1) ++ [t] ++ l.drop (i + 1)

/-- The shared push body of `task_queue::push` (awaitable_task.hpp:543-558)
and the locked section of `try_push` (awaitable_task.hpp:466-486): if the
sequence is empty, `emplace_front` and point `last_` at `begin()`;
otherwise `last_ = emplace_after(last_, t)`.  For every queue reachable
through the public operations `last_` is a valid node when the sequence
is nonempty; the remaining cursor cases (where the C++ `emplace_after`
would be undefined) are modelled as appending at the end. -/
def pushQueue {α : Type} (q : Queue α) (t : α) : Queue α :=
  match q.tasks with
  | [] => { q with tasks := [t], last := FPos.node 0 }
  | _ =>
    match q.last with
    | .node i => { q with tasks := insertAfter q.tasks i t, last := FPos.node (i + 1) }
    | _ => { q with tasks := q.tasks ++ [t], last := FPos.node q.tasks.length }

/-- `task_queue::try_push` (awaitable_task.hpp:466-486): `try_to_lock`;
on contention return `false` without touching the queue, else run the
push body and return `true`.  The lock outcome is the oracle `lockOk`. -/
def tryPush {α : Type} (q : Queue α) (lockOk : Bool) (t : α) : Bool × Queue α :=
  if lockOk then (true, pushQueue q t) else (false, q)

/-- The tail cursor after `pop_front()`: `last_` is a node pointer, so
the element it denotes shifts down one position when the head node is
removed.  When `last_` pointed at the removed head itself (a
one-element sequence, under the cursor invariant of the public
operations) the C++ pointer dangles; its value is irrelevant while the
sequence is empty and the next push onto an empty sequence resets it,
so the model leaves it — and the non-node sentinels — unchanged. -/
def cursorAfterPopFront : FPos → FPos
  | .node (i + 1) => FPos.node i
  | p => p

/-- `task_queue::try_pop` (awaitable_task.hpp:450-464): `try_to_lock`;
on contention or an empty sequence return `(false, empty)`, else remove
and return the head (`pop_front`, which shifts the tail cursor's
denoted position). -/
def tryPop {α : Type} (q : Queue α) (lockOk : Bool) : (Bool × Option α) × Queue α :=
  if lockOk then
    match q.tasks with
    | [] => ((false, none), q)
    | t :: rest =>
      ((true, some t), { q with tasks := rest, last := cursorAfterPopFront q.last })
  else ((false, none), q)

/-- What one call to blocking `task_queue::pop` does, in a static model
(task readiness and queue contents do not change while `pop` runs):
return `(false, empty)` on a done-and-empty queue, wait forever on the
condition variable on an empty not-done queue, return `(true, t)`
directly, pop the head `t` and spin-yield until `t.ready()` (which in
the static model returns only if `t` is already ready), or hit undefined
behaviour (a null `forward_list` iterator). -/
inductive PopOutcome (α : Type)
  | closed
  | blockedWait
  | popped (t : α)
  | spinOn (t : α)
  | ub
deriving DecidableEq, Repr

/-- `erase_after(lag)` on a node position: removes the element after
index `i`.  The other cursor shapes (where the C++ call would be
undefined) leave the list unchanged; they are unreachable in the scan
below. -/
def eraseAfter {α : Type} (l : List α) : FPos → List α
  | .node i => l.take (i + 1) ++ l.drop (i + 2)
  | .beforeBegin => l.drop 1
  | .endPos => l

/-- The ready-skipping scan loop of `task_queue::pop`
(awaitable_task.hpp:512-540):

`for (auto lag = iter++; lag != old_last; lag = iter++) { ... }`

with the fall-through fallback that pops the current head, releases the
lock and spin-yields until that head is ready.  `lag` and `iter` are
node positions in the current sequence; they agree with element indices
because every reachable iteration of this loop runs on a sequence no
splice has touched (the non-trivial `rotate_with_` aborts with
undefined behaviour first).  The loop in the source has no iteration
bound of its own; `fuel` dominates every reachable run, and exhausting
it is reported as `ub` (never reached by the theorems below). -/
def scanLoop {α : Type} (rdy : α → Bool) :
    Nat → List α → FPos → List α → FPos → FPos → FPos → Bool →
    PopOutcome α × Queue α
  | 0, ts, l, _, _, _, _, dn => (.ub, ⟨ts, l, dn⟩)
  | fuel + 1, ts, l, sb, lag, iter, oldLast, dn =>
    if lag = oldLast then
      match ts with
      | [] => (.ub, ⟨ts, l, dn⟩)
      | t :: rest => (.spinOn t, ⟨rest, cursorAfterPopFront l, dn⟩)
    else
      match derefPos ts iter with
      | none => (.ub, ⟨ts, l, dn⟩)
      | some t =>
        if rdy t then
          let l2 := if l = iter then lag else l
          (.popped t, ⟨eraseAfter ts lag, l2, dn⟩)
        else
          match rotateWith ts l sb with
          | none => (.ub, ⟨ts, l, dn⟩)
          | some (ts2, l2, sb2) =>
            scanLoop rdy fuel ts2 l2 sb2 iter (posSucc ts2 iter) oldLast dn

/-- Blocking `task_queue::pop` (awaitable_task.hpp:488-541):

1. wait on the condition variable while the sequence is empty and
   `done_` is unset; if still empty (so done), return `(false, empty)`;
2. `iter := begin()`, `old_last := last_`, fresh empty `side_buf`;
3. if the head is ready, pop and return it;
4. otherwise `rotate_with_(side_buf)` and run the scan loop, entering it
   with `lag = iter` (the node of the original head) and `iter` its
   successor in the current sequence;
5. the loop exits into the spin-yield fallback handled by `scanLoop`. -/
def popQueue {α : Type} (rdy : α → Bool) (q : Queue α) : PopOutcome α × Queue α :=
  match q.tasks with
  | [] => if q.done then (.closed, q) else (.blockedWait, q)
  | t0 :: rest =>
    if rdy t0 then
      (.popped t0, { q with tasks := rest, last := cursorAfterPopFront q.last })
    else
      match rotateWith (t0 :: rest) q.last [] with
      | none => (.ub, q)
      | some (ts, l, sb) =>
        scanLoop rdy (ts.length + 1) ts l sb (FPos.node 0)
          (posSucc ts (FPos.node 0)) q.last q.done

/-! ## The task system (`awaitable_task_system`)

The dispatch layer is modelled by the queue *indices* each entry point
touches, with the per-attempt `try_push` / `try_pop` successes supplied
by a boolean oracle indexed by the attempt number `k`. -/

/-- `awaitable_task_system::get_thread_queue_idx`
(awaitable_task.hpp:594-597): `((idx + seed) % nthreads_) + 1`.  With
`nthreads_ = 0` the modulus is zero — undefined behaviour, `none`. -/
def getThreadQueueIdx (nthreads idx seed : Nat) : Option Nat :=
  if nthreads = 0 then none else some ((idx + seed) % nthreads + 1)

/-- `awaitable_task_system::get_main_thread_queue_idx`
(awaitable_task.hpp:599-602). -/
def getMainThreadQueueIdx : Nat := 0

/-- Where a submission ended up: a successful `try_push` on queue `q`, a
blocking `push` on queue `q`, or undefined behaviour (modulo by zero in
`get_thread_queue_idx`). -/
inductive Route
  | tryPushed (q : Nat)
  | blockingPush (q : Nat)
  | ub
deriving DecidableEq, Repr

/-- The queue index a route targets, when it is defined. -/
def Route.queueOf : Route → Option Nat
  | .tryPushed q => some q
  | .blockingPush q => some q
  | .ub => none

/-- Boolean discriminator for the undefined-behaviour route. -/
def Route.isUB : Route → Bool
  | .ub => true
  | _ => false

/-- The worker-targeted submission loop shared by `push_ready`
(awaitable_task.hpp:689-698) and both `push_awaitable` overloads
(awaitable_task.hpp:732-741 and 764-773): for each remaining attempt
seed `k`, compute `get_thread_queue_idx(idx, k)` and `try_push` there,
returning on the first success; after the loop, a blocking `push` on
`get_thread_queue_idx(idx)` (seed 0). -/
def tryLoopSeeds (nthreads idx : Nat) (ok : Nat → Bool) : List Nat → Route
  | [] =>
    match getThreadQueueIdx nthreads idx 0 with
    | none => .ub
    | some qi => .blockingPush qi
  | k :: ks =>
    match getThreadQueueIdx nthreads idx k with
    | none => .ub
    | some qi => if ok k then .tryPushed qi else tryLoopSeeds nthreads idx ok ks

/-- The worker-targeted submission path with its `k = 0 .. 10*nthreads - 1`
attempt window. -/
def workerSubmitRoute (nthreads idx : Nat) (ok : Nat → Bool) : Route :=
  tryLoopSeeds nthreads idx ok (List.range (10 * nthreads))

/-- The main-queue submission loop shared by the `*_on_main` entry
points: every attempt and the blocking fallback target queue 0
(`get_main_thread_queue_idx`); only the attempt count differs per entry
point and is supplied as the seed list. -/
def mainTryLoop (ok : Nat → Bool) : List Nat → Route
  | [] => .blockingPush getMainThreadQueueIdx
  | k :: ks => if ok k then .tryPushed getMainThreadQueueIdx else mainTryLoop ok ks

/-- The system state the dispatch layer reads and writes: the worker
count `nthreads_` and the dispatch counter `current_index_`. -/
structure TaskSystem where
  nthreads : Nat
  currentIndex : Nat

/-- The constructor `awaitable_task_system(nthreads)`
(awaitable_task.hpp:609-627): `current_index_` starts at 1. -/
def mkSystem (nthreads : Nat) : TaskSystem :=
  { nthreads := nthreads, currentIndex := 1 }

/-- The constructor's queue count: `nthreads + 1` (one `emplace_back`
for the main queue, then one per `th = 1 .. nthreads`). -/
def numQueues (nthreads : Nat) : Nat := nthreads + 1

/-- The worker threads the constructor spawns: one per index
`th = 1 .. nthreads`, each running `run(th)` against home queue `th`. -/
def workerIds (nthreads : Nat) : List Nat := List.range' 1 nthreads

/-- `awaitable_task_system::push_ready` (awaitable_task.hpp:669-701):
with `nthreads_ == 0`, delegate to `push_ready_on_main`, whose attempt
window is `k < 10 * nthreads_` (hence empty) on queue 0
(awaitable_task.hpp:789-811) and which does not touch `current_index_`;
otherwise read `idx = current_index_++` and run the worker-targeted
loop. -/
def pushReady (s : TaskSystem) (ok : Nat → Bool) : Route × TaskSystem :=
  if s.nthreads = 0 then
    (mainTryLoop ok (List.range (10 * s.nthreads)), s)
  else
    (workerSubmitRoute s.nthreads s.currentIndex ok,
     { s with currentIndex := s.currentIndex + 1 })

/-- `awaitable_task_system::push_awaitable(f, args...)`
(awaitable_task.hpp:712-745): with `nthreads_ == 0`, delegate to
`push_awaitable_on_main(f, args...)`, whose attempt window is `k < 10`
on queue 0 (awaitable_task.hpp:823-846); otherwise identical to the
worker-targeted path of `push_ready`. -/
def pushAwaitable (s : TaskSystem) (ok : Nat → Bool) : Route × TaskSystem :=
  if s.nthreads = 0 then
    (mainTryLoop ok (List.range 10), s)
  else
    (workerSubmitRoute s.nthreads s.currentIndex ok,
     { s with currentIndex := s.currentIndex + 1 })

/-- `awaitable_task_system::push_awaitable(awaitable_task &&)`
(awaitable_task.hpp:756-775): with `nthreads_ == 0`, delegate to
`push_awaitable_on_main(task)`, attempt window `k < 10` on queue 0
(awaitable_task.hpp:857-867); otherwise the worker-targeted path. -/
def pushAwaitableTask (s : TaskSystem) (ok : Nat → Bool) : Route × TaskSystem :=
  if s.nthreads = 0 then
    (mainTryLoop ok (List.range 10), s)
  else
    (workerSubmitRoute s.nthreads s.currentIndex ok,
     { s with currentIndex := s.currentIndex + 1 })

/-- Outcome of one `run_on_main()` call: a task was acquired and invoked
(`p.second()` on a non-empty task), the call returned without invoking
anything (`!p.first` after the blocking pop), the blocking pop waits
forever, `p.second()` was called on an empty task (`BadTaskAccess`), or
the pop scan hit undefined behaviour. -/
inductive MainOutcome (α : Type)
  | invoked (t : α)
  | noTask
  | blockedWait
  | badAccess
  | ub
deriving DecidableEq, Repr

/-- The `k < 10` `try_pop` attempt loop of `run_on_main`
(awaitable_task.hpp:880-885), threading the queue state and stopping at
the first success. -/
def mainTryPops {α : Type} (q : Queue α) (locks : Nat → Bool) :
    List Nat → (Bool × Option α) × Queue α
  | [] => ((false, none), q)
  | k :: ks =>
    match tryPop q (locks k) with
    | ((true, t), q2) => ((true, t), q2)
    | ((false, _), q2) => mainTryPops q2 locks ks

/-- `awaitable_task_system::run_on_main` (awaitable_task.hpp:875-896):
up to 10 `try_pop` attempts on queue 0; if none succeeded, a blocking
`pop`; if that returns `(false, _)`, return without invoking; otherwise
invoke `p.second()`. -/
def runOnMain {α : Type} (rdy : α → Bool) (q : Queue α) (locks : Nat → Bool) :
    MainOutcome α × Queue α :=
  match mainTryPops q locks (List.range 10) with
  | ((true, some t), q2) => (.invoked t, q2)
  | ((true, none), q2) => (.badAccess, q2)
  | ((false, _), q2) =>
    match popQueue rdy q2 with
    | (.closed, q3) => (.noTask, q3)
    | (.blockedWait, q3) => (.blockedWait, q3)
    | (.popped t, q3) => (.invoked t, q3)
    | (.spinOn t, q3) => (.invoked t, q3)
    | (.ub, q3) => (.ub, q3)

/-! ## The boolean readiness view used by the queue -/

/-- `awaitable_task::ready()` as the plain boolean the queue scan
consumes.  The scan only ever holds tasks built by the factories, never
empty ones, and on those `ready()` returns a boolean; the (unreachable)
empty-task case, which would throw, is mapped to `false`. -/
def awReadyBool (t : AwTask) : Bool :=
  match awReady t with
  | .ok b => b
  | .error _ => false

/-- Boolean discriminator: did `ready()` raise `BadTaskAccess`? -/
def readyRaisesBadAccess : Except TaskErr Bool → Bool
  | .error _ => true
  | .ok _ => false

/-! ## Spec-side definitions, for refinement comparisons

These two definitions follow the words of the spec, not the source; each
claim theorem that uses one compares it against the source-derived
definition. -/

/-- Follows the spec's words: `ready()` for awaitable tasks "returns
true iff every future-typed argument reports ready under a zero-duration
wait, with non-future arguments counting as ready".  A future reports
ready under a zero-duration wait exactly when it has resolved (with a
value or a failure). -/
def specArgReady : BoundArg → Bool
  | .plain _ => true
  | .fut .pending => false
  | .fut (.value _) => true
  | .fut (.failure _) => true

/-- Follows the spec's words: "iterates `k = 0..10·N - 1` attempting
`try_push` on queue `((idx + k) mod N) + 1`.  On success it returns
immediately.  If all `10·N` attempts fail, it falls back to a blocking
`push` on queue `((idx) mod N) + 1`." -/
def specWorkerRoute (n idx : Nat) (ok : Nat → Bool) : Route :=
  match (List.range (10 * n)).find? ok with
  | some k => Route.tryPushed ((idx + k) % n + 1)
  | none => Route.blockingPush (idx % n + 1)

/-! ## Helper lemmas -/

/-- The scan loop never touches the `done_` flag it was entered with. -/
theorem scanLoop_preserves_done {α : Type} (rdy : α → Bool) :
    ∀ (fuel : Nat) (ts : List α) (l : FPos) (sb : List α) (lag iter ol : FPos) (dn : Bool),
      ((scanLoop rdy fuel ts l sb lag iter ol dn).2).done = dn := by
  intro fuel
  induction fuel with
  | zero => intro ts l sb lag iter ol dn; rfl
  | succ n ih =>
    intro ts l sb lag iter ol dn
    simp only [scanLoop]
    split
    · split <;> rfl
    · split
      · rfl
      · split
        · rfl
        · split
          · rfl
          · exact ih _ _ _ _ _ _ _

/-- Blocking `pop` never changes the `done_` flag. -/
theorem popQueue_preserves_done {α : Type} (rdy : α → Bool) (q : Queue α) :
    ((popQueue rdy q).2).done = q.done := by
  simp only [popQueue]
  split
  · split <;> rfl
  · split
    · rfl
    · split
      · rfl
      · exact scanLoop_preserves_done rdy _ _ _ _ _ _ _ _

/-- With a nonzero worker count, the worker-targeted attempt loop lands
on the queue of the first successful seed, and on the seed-0 queue as a
blocking push when every attempt fails. -/
theorem tryLoopSeeds_find_eq (n idx : Nat) (hn : n ≠ 0) (ok : Nat → Bool) :
    ∀ ks : List Nat,
      tryLoopSeeds n idx ok ks =
        (match ks.find? ok with
         | some k => Route.tryPushed ((idx + k) % n + 1)
         | none => Route.blockingPush (idx % n + 1)) := by
  intro ks
  induction ks with
  | nil => simp [tryLoopSeeds, getThreadQueueIdx, hn]
  | cons k ks ih =>
    cases h : ok k with
    | true => simp [tryLoopSeeds, getThreadQueueIdx, hn, List.find?, h]
    | false => simp [tryLoopSeeds, getThreadQueueIdx, hn, List.find?, h, ih]

/-- With a nonzero worker count, the worker-targeted attempt loop never
reaches the modulo-by-zero route. -/
theorem tryLoopSeeds_not_ub (n idx : Nat) (hn : n ≠ 0) (ok : Nat → Bool) :
    ∀ ks : List Nat, ((tryLoopSeeds n idx ok ks)).isUB = false := by
  intro ks
  rw [tryLoopSeeds_find_eq n idx hn ok ks]
  cases ks.find? ok <;> rfl

/-- The main-queue submission loop always lands on queue 0. -/
theorem mainTryLoop_targets_main (ok : Nat → Bool) :
    ∀ ks : List Nat, ((mainTryLoop ok ks)).queueOf = some getMainThreadQueueIdx := by
  intro ks
  induction ks with
  | nil => rfl
  | cons k ks ih =>
    cases h : ok k
    · simpa [mainTryLoop, h] using ih
    · simp [mainTryLoop, h, Route.queueOf]

/-- The main-queue submission loop never reaches the undefined route. -/
theorem mainTryLoop_not_ub (ok : Nat → Bool) :
    ∀ ks : List Nat, ((mainTryLoop ok ks)).isUB = false := by
  intro ks
  induction ks with
  | nil => rfl
  | cons k ks ih =>
    cases h : ok k
    · simpa [mainTryLoop, h] using ih
    · simp [mainTryLoop, h, Route.isUB]

/-- `try_pop` on an empty queue fails and leaves the queue unchanged,
whatever the lock outcome. -/
theorem tryPop_empty {α : Type} (q : Queue α) (lk : Bool) (he : q.tasks = []) :
    tryPop q lk = ((false, none), q) := by
  cases lk <;> simp [tryPop, he]

/-- The `run_on_main` attempt loop on an empty queue fails every attempt
and leaves the queue unchanged. -/
theorem mainTryPops_empty {α : Type} (locks : Nat → Bool) :
    ∀ (ks : List Nat) (q : Queue α), q.tasks = [] →
      mainTryPops q locks ks = ((false, none), q) := by
  intro ks
  induction ks with
  | nil => intro q he; rfl
  | cons k ks ih =>
    intro q he
    simp only [mainTryPops]
    rw [tryPop_empty q (locks k) he]
    exact ih q he

/-- With the const-overload resolution of `call_ready`, the compiled
`ready()` poll of an awaitable task is constantly true. -/
theorem do_ready_const_true : ∀ args : List BoundArg, do_ready args = true := by
  intro args
  induction args with
  | nil => rfl
  | cons a rest ih =>
    simp only [do_ready, check_all_true, List.map_cons, List.all_cons, id] at ih ⊢
    simp [call_ready, ih]

/-- `ready()` of every non-empty task, seen as the boolean the queue
scan consumes, is true. -/
theorem awReadyBool_nonempty_true (m : TaskModel) : awReadyBool (some m) = true := by
  cases m with
  | readyModel f args => rfl
  | awaitableModel f args => simp [awReadyBool, awReady, do_ready_const_true]

/-! ## Claim theorems -/

/-- C1.  On every queue whose sequence is non-empty (its tasks built by
the factories, hence non-empty tasks), blocking `pop()` returns
`(true, t)` — never `(false, _)` — and the returned task satisfies
`t.ready() = true`.  In the compiled code this holds degenerately:
`ready()` is identically true for non-empty tasks (the `const`
`do_ready_` cannot select the future-polling `call_ready` overload), so
the head check at awaitable_task.hpp:501 fires at once and `pop`
returns the head; the ready-skipping scan and the spin-yield fallback
are never needed. -/
theorem pop_returns_ready_head (rest : List AwTask) (m : TaskModel) (l : FPos) (dn : Bool) :
    (popQueue awReadyBool ⟨some m :: rest, l, dn⟩).1 = PopOutcome.popped (some m) ∧
    awReadyBool (some m) = true := by
  have hr := awReadyBool_nonempty_true m
  exact ⟨by simp [popQueue, hr], hr⟩

/-- C2.  The claim states that a dependency failure `E` is captured into
the task's output promise and does not escape `invoke()`.  The code
refutes it: `call_get` (which rethrows `E` via `future::get()`) is
evaluated as an argument of the `packaged_task` call, so `E` propagates
out of `invoke()` before the packaged task could run, and the promise is
left unset (`none`). -/
theorem dependency_failure_escapes_invoke :
    awInvoke (make_awaitable_task (fun vs => Except.ok (vs.headD 0))
        [BoundArg.fut (FutState.failure 7)]) =
      (InvokePhase.escaped 7, none) :=
  rfl

/-- C3.  The ready-skipping scan performs no iterations in the compiled
code, so the claimed per-iteration tail-cursor invariant holds
vacuously: `ready()` of a stored (non-empty, factory-built) task is
identically true — the `const` `do_ready_` cannot select the
future-polling `call_ready` overload — so the not-ready guard that
enters `rotate_with_` (awaitable_task.hpp:507-510) never holds, and
`pop` on a non-empty sequence exits through the head check with the
sequence simply beheaded: no rotation, no splice-out, no spin occurs.
The second conjunct exhibits the full post-`pop` state (tail unrotated,
cursor merely shifted by the `pop_front`).  (As text, a non-trivial
rotation could not even complete — its first splice targets
`side_buf.begin()` of the empty side buffer, the null end iterator —
but no execution reaches it.) -/
theorem scan_never_iterates :
    (∀ m : TaskModel, awReadyBool (some m) = true) ∧
    ∀ (rest : List AwTask) (m : TaskModel) (l : FPos) (dn : Bool),
      popQueue awReadyBool ⟨some m :: rest, l, dn⟩ =
        (PopOutcome.popped (some m), ⟨rest, cursorAfterPopFront l, dn⟩) := by
  refine ⟨awReadyBool_nonempty_true, ?_⟩
  intro rest m l dn
  have hr := awReadyBool_nonempty_true m
  simp [popQueue, hr]

/-- C4.  The claim states that `ready()` of a task built by
`make_awaitable_task` is true iff every future-typed bound argument
reports ready under a zero-duration wait (the spec-worded
`specArgReady`).  The code refutes the iff: inside the `const`
`do_ready_`, `std::get<I>(_args)` yields const lvalues, the
future-polling `call_ready(std::future<T> &)` overload cannot bind them
and the generic always-true overload is selected, so `ready()` is
identically true — in particular true on a task over a still-pending
future, which the zero-duration poll reports not ready.  (The
`make_ready_task` half of the claim does hold, degenerately.) -/
theorem ready_true_on_pending_future :
    awReady (make_awaitable_task (fun _ => Except.ok 0) [BoundArg.fut FutState.pending]) =
      Except.ok true ∧
    specArgReady (BoundArg.fut FutState.pending) = false ∧
    ∀ (f : List Val → Except Err Val) (vs : List Val) (args : List BoundArg),
      awReady (make_ready_task f vs) = Except.ok true ∧
      awReady (make_awaitable_task f args) = Except.ok true := by
  refine ⟨rfl, rfl, ?_⟩
  intro f vs args
  exact ⟨rfl, by simp [awReady, make_awaitable_task, do_ready_const_true]⟩

/-- C5.  For every worker-targeted submission with at least one worker,
through each of the three entry points — `push_ready`,
`push_awaitable(f, args...)` and `push_awaitable(Task)`: the dispatch
counter is bumped by one and its pre-increment value is `idx`; the
submission lands exactly where the spec formula says — on queue
`((idx + k) mod N) + 1` for the first successful attempt `k < 10·N`,
else as a blocking push on queue `(idx mod N) + 1` (the spec-worded
`specWorkerRoute`). -/
theorem workerSubmit_matches_spec (s : TaskSystem) (ok : Nat → Bool)
    (hn : s.nthreads ≠ 0) :
    (pushReady s ok).1 = specWorkerRoute s.nthreads s.currentIndex ok ∧
    ((pushReady s ok).2).currentIndex = s.currentIndex + 1 ∧
    ((pushReady s ok).2).nthreads = s.nthreads ∧
    (pushAwaitable s ok).1 = specWorkerRoute s.nthreads s.currentIndex ok ∧
    ((pushAwaitable s ok).2).currentIndex = s.currentIndex + 1 ∧
    (pushAwaitableTask s ok).1 = specWorkerRoute s.nthreads s.currentIndex ok ∧
    ((pushAwaitableTask s ok).2).currentIndex = s.currentIndex + 1 := by
  refine ⟨?_, ?_, ?_, ?_, ?_, ?_, ?_⟩
  · simp only [pushReady, if_neg hn]
    exact tryLoopSeeds_find_eq s.nthreads s.currentIndex hn ok _
  · simp [pushReady, if_neg hn]
  · simp [pushReady, if_neg hn]
  · simp only [pushAwaitable, if_neg hn]
    exact tryLoopSeeds_find_eq s.nthreads s.currentIndex hn ok _
  · simp [pushAwaitable, if_neg hn]
  · simp only [pushAwaitableTask, if_neg hn]
    exact tryLoopSeeds_find_eq s.nthreads s.currentIndex hn ok _
  · simp [pushAwaitableTask, if_neg hn]

/-- Witness for C5 on a one-worker system whose every `try_push`
attempt fails, covering all three entry points. -/
theorem workerSubmit_matches_spec_witness :
    (pushReady (mkSystem 1) (fun _ => false)).1 =
      specWorkerRoute 1 1 (fun _ => false) ∧
    ((pushReady (mkSystem 1) (fun _ => false)).2).currentIndex = 1 + 1 ∧
    ((pushReady (mkSystem 1) (fun _ => false)).2).nthreads = 1 ∧
    (pushAwaitable (mkSystem 1) (fun _ => false)).1 =
      specWorkerRoute 1 1 (fun _ => false) ∧
    ((pushAwaitable (mkSystem 1) (fun _ => false)).2).currentIndex = 1 + 1 ∧
    (pushAwaitableTask (mkSystem 1) (fun _ => false)).1 =
      specWorkerRoute 1 1 (fun _ => false) ∧
    ((pushAwaitableTask (mkSystem 1) (fun _ => false)).2).currentIndex = 1 + 1 :=
  workerSubmit_matches_spec (mkSystem 1) (fun _ => false) (by decide)

/-- C6.  On a queue whose `done_` flag is set: blocking `pop` on an
empty sequence returns `(false, empty)` immediately (the condition
variable wait-loop guard is already false, so the outcome is `closed`,
not `blockedWait`); a second `set_done` leaves the queue unchanged; and
no queue operation ever clears the flag. -/
theorem queue_done_semantics {α : Type} (rdy : α → Bool) (q : Queue α)
    (t : α) (lk : Bool) (hd : q.done = true) :
    (q.tasks = [] → popQueue rdy q = (PopOutcome.closed, q)) ∧
    setDone q = q ∧
    setDone (setDone q) = setDone q ∧
    (setDone q).done = true ∧
    (pushQueue q t).done = true ∧
    ((tryPush q lk t).2).done = true ∧
    ((tryPop q lk).2).done = true ∧
    ((popQueue rdy q).2).done = true := by
  obtain ⟨ts, l, d⟩ := q
  simp only [Queue.done] at hd
  subst hd
  have hpush : ∀ u : α, (pushQueue ⟨ts, l, true⟩ u).done = true := by
    intro u
    cases ts <;> cases l <;> rfl
  refine ⟨?_, rfl, rfl, rfl, hpush t, ?_, ?_, ?_⟩
  · intro he
    simp only [Queue.tasks] at he
    subst he
    rfl
  · cases lk
    · rfl
    · exact hpush t
  · cases lk
    · rfl
    · cases ts <;> rfl
  · exact popQueue_preserves_done rdy ⟨ts, l, true⟩

/-- Witness for C6 on a concrete done-and-empty queue. -/
theorem queue_done_semantics_witness :
    popQueue (fun _ : Nat => true) ⟨[], FPos.endPos, true⟩ =
      (PopOutcome.closed, ⟨[], FPos.endPos, true⟩) :=
  (queue_done_semantics (fun _ : Nat => true) ⟨[], FPos.endPos, true⟩ 0 true rfl).1 rfl

/-- C7.  A system constructed with `N = 0` workers: construction
succeeds with one queue (the main queue) and no worker threads, and all
three submission entry points route to queue 0, whatever the `try_push`
outcomes. -/
theorem zero_workers_route_main (ok okA okT : Nat → Bool) :
    workerIds 0 = [] ∧
    numQueues 0 = 1 ∧
    ((pushReady (mkSystem 0) ok).1).queueOf = some getMainThreadQueueIdx ∧
    ((pushAwaitable (mkSystem 0) okA).1).queueOf = some getMainThreadQueueIdx ∧
    ((pushAwaitableTask (mkSystem 0) okT).1).queueOf = some getMainThreadQueueIdx := by
  refine ⟨rfl, rfl, rfl, ?_, ?_⟩
  · exact mainTryLoop_targets_main okA (List.range 10)
  · exact mainTryLoop_targets_main okT (List.range 10)

/-- C8.  Both `invoke()` and `ready()` on an empty task fail with
`BadTaskAccess`; on any non-empty task neither raises `BadTaskAccess`
(whatever else the invocation does). -/
theorem badTaskAccess_iff_empty :
    (awInvoke none).1 = InvokePhase.badTaskAccess ∧
    awReady (none : AwTask) = Except.error TaskErr.badTaskAccess ∧
    ∀ m : TaskModel,
      ((awInvoke (some m)).1).isBadAccess = false ∧
      readyRaisesBadAccess (awReady (some m)) = false := by
  refine ⟨rfl, rfl, ?_⟩
  intro m
  cases m with
  | readyModel f args => exact ⟨rfl, rfl⟩
  | awaitableModel f args =>
    constructor
    · cases h : evalArgs args <;> simp [awInvoke, h, InvokePhase.isBadAccess]
    · rfl

/-- C9.  `run_on_main()` on a done-and-empty main queue returns without
invoking anything: the `(false, empty)` result of the blocking `pop` is
checked before `p.second()` runs, so no task is invoked and no
`BadTaskAccess` is raised. -/
theorem runOnMain_done_empty {α : Type} (rdy : α → Bool) (q : Queue α)
    (locks : Nat → Bool) (hd : q.done = true) (he : q.tasks = []) :
    (runOnMain rdy q locks).1 = MainOutcome.noTask := by
  have h1 := mainTryPops_empty (α := α) locks (List.range 10) q he
  have h2 : popQueue rdy q = (PopOutcome.closed, q) := by
    obtain ⟨ts, l, d⟩ := q
    simp only [Queue.tasks] at he
    simp only [Queue.done] at hd
    subst he
    subst hd
    rfl
  simp [runOnMain, h1, h2]

/-- Witness for C9 on a concrete done-and-empty queue. -/
theorem runOnMain_done_empty_witness :
    (runOnMain (fun _ : Nat => true) ⟨[], FPos.endPos, true⟩ (fun _ => true)).1 =
      MainOutcome.noTask :=
  runOnMain_done_empty (fun _ : Nat => true) ⟨[], FPos.endPos, true⟩ (fun _ => true) rfl rfl

/-- C10.  No reachable call of `get_thread_queue_idx` divides by zero.
For *every* system, zero workers included, each public submission entry
point yields a defined route: with `nthreads_ = 0` it branches to its
`*_on_main` path, which targets queue 0 without ever calling
`get_thread_queue_idx`, and with `nthreads_ ≥ 1` every mod-N index is
defined.  Workers exist only when `nthreads_ ≥ 1`, and then every seed
the worker loop passes yields a defined queue index. -/
theorem getThreadQueueIdx_reachable (s : TaskSystem) (ok : Nat → Bool) :
    ((pushReady s ok).1).isUB = false ∧
    ((pushAwaitable s ok).1).isUB = false ∧
    ((pushAwaitableTask s ok).1).isUB = false ∧
    ∀ w ∈ workerIds s.nthreads, ∀ k : Nat,
      (getThreadQueueIdx s.nthreads w k).isSome = true := by
  by_cases h : s.nthreads = 0
  · refine ⟨?_, ?_, ?_, ?_⟩
    · simp only [pushReady, if_pos h]
      exact mainTryLoop_not_ub ok _
    · simp only [pushAwaitable, if_pos h]
      exact mainTryLoop_not_ub ok _
    · simp only [pushAwaitableTask, if_pos h]
      exact mainTryLoop_not_ub ok _
    · intro w hw k
      rw [h] at hw
      exact absurd hw (by simp [workerIds])
  · refine ⟨?_, ?_, ?_, ?_⟩
    · simp only [pushReady, if_neg h]
      exact tryLoopSeeds_not_ub s.nthreads s.currentIndex h ok _
    · simp only [pushAwaitable, if_neg h]
      exact tryLoopSeeds_not_ub s.nthreads s.currentIndex h ok _
    · simp only [pushAwaitableTask, if_neg h]
      exact tryLoopSeeds_not_ub s.nthreads s.currentIndex h ok _
    · intro w hw k
      simp [getThreadQueueIdx, h]

/-- Witness for C10: the zero-worker system's `push_ready` route is
defined, and on a two-worker system worker 1's seed-3 index is defined
(discharging the worker-membership hypothesis). -/
theorem getThreadQueueIdx_reachable_witness :
    ((pushReady (mkSystem 0) (fun _ => false)).1).isUB = false ∧
    (getThreadQueueIdx 2 1 3).isSome = true :=
  ⟨(getThreadQueueIdx_reachable (mkSystem 0) (fun _ => false)).1,
   (getThreadQueueIdx_reachable (mkSystem 2) (fun _ => false)).2.2.2 1 (by decide) 3⟩

end AwaitableTasks
